import Mathlib

/-!
Verification development for the free4talk-tracker-api query service
(`src/routes/api.js`, with the connection pool in `src/db.js`).

The JavaScript handlers are shallowly embedded: every SQL statement is
translated into a Lean function over explicit table rows (lists of
records), the dynamically assembled WHERE clauses are rebuilt as the
source builds them (string concatenation plus a positional parameter
array), and JavaScript truthiness (`x || d`, `if (x)`) is modelled on
`Option` values.  Timestamps are integers (epoch seconds), `NOW()` is an
explicit `now` argument, and nullable SQL columns are `Option` fields.
-/

namespace Free4Talk

/-! ## JavaScript value helpers -/

/-- Truthiness of a nullable string: `undefined`/missing and `""` are falsy,
every other string is truthy (JS `if (x)` on a query-string value). -/
def jsTruthyStr : Option String → Bool
  | none => false
  | some s => !(s == "")

/-- Truthiness of a nullable integer: `null` and `0` are falsy. -/
def intTruthy : Option Int → Bool
  | none => false
  | some n => !(n == 0)

/-- JS `a || b` on a nullable integer column with an integer default,
as in `user.followers_count || 0` (src/routes/api.js lines 154-160). -/
def jsOrInt (a : Option Int) (b : Int) : Option Int :=
  if intTruthy a then a else some b

/-- JS `parseInt(a) || 0` where `a` is a nullable integer column:
`parseInt(null)` is `NaN` (falsy) and `parseInt(0)` is `0` (falsy), so the
default `0` is produced in both cases (src/routes/api.js lines 163-166). -/
def jsParseIntOr0 (a : Option Int) : Option Int :=
  if intTruthy a then a else some 0

/-- JS `a || null` on a nullable string, as in
`favLangResult.rows[0]?.language || null` (src/routes/api.js line 144). -/
def jsOrNullStr (a : Option String) : Option String :=
  if jsTruthyStr a then a else none

/-- JS `s.substring(0, n)`: the first `n` characters of `s`
(src/routes/api.js line 21). -/
def jsSubstring (s : String) (n : Nat) : String :=
  String.mk (s.data.take n)

/-! ## Express routing (registration order of `router.get`/`router.post`
in src/routes/api.js) -/

/-- One segment of an Express route pattern: a literal path segment or a
named parameter such as `:roomId` (which matches any single segment). -/
inductive Seg
  | lit (s : String)
  | param (name : String)
deriving DecidableEq

/-- Whether one pattern segment matches one concrete path segment. -/
def segMatches : Seg → String → Bool
  | .lit s, x => s == x
  | .param _, _ => true

/-- Whether a whole route pattern matches a concrete path (Express routes
match segment-by-segment, a `:param` capturing exactly one segment). -/
def routeMatches (pat : List Seg) (path : List String) : Bool :=
  pat.length == path.length && (List.zip pat path).all fun p => segMatches p.1 p.2

/-- A registered route: HTTP method, pattern, and the handler it runs. -/
structure Route where
  method : String
  pattern : List Seg
  handler : String
deriving DecidableEq

/-- The routes of src/routes/api.js in registration order (lines 32, 83,
182, 221, 296, 329, 414, 468, 514, 585, 633, 670, 724, 783, 847, 894, 922,
960, 987, 1010, 1041). -/
def apiRoutes : List Route := [
  ⟨"GET", [.lit "users", .lit "search"], "searchUsers"⟩,
  ⟨"GET", [.lit "users", .param "userId"], "getUserProfile"⟩,
  ⟨"GET", [.lit "users", .param "userId", .lit "history"], "getUserHistory"⟩,
  ⟨"GET", [.lit "users", .param "userId", .lit "rooms"], "getUserRooms"⟩,
  ⟨"GET", [.lit "users", .param "userId", .lit "rooms", .param "roomId", .lit "sessions"], "getUserRoomSessions"⟩,
  ⟨"GET", [.lit "rooms", .param "roomId"], "getRoomDetails"⟩,
  ⟨"GET", [.lit "rooms", .param "roomId", .lit "participants"], "getRoomParticipants"⟩,
  ⟨"GET", [.lit "rooms", .param "roomId", .lit "timeline"], "getRoomTimeline"⟩,
  ⟨"GET", [.lit "rooms", .param "roomId", .lit "snapshots"], "getRoomSnapshots"⟩,
  ⟨"GET", [.lit "users", .param "user1Id", .lit "shared", .param "user2Id"], "getSharedRooms"⟩,
  ⟨"GET", [.lit "leaderboard", .lit "most-stalked"], "mostStalked"⟩,
  ⟨"GET", [.lit "leaderboard", .lit "most-active"], "mostActive"⟩,
  ⟨"GET", [.lit "rooms", .lit "trending"], "trendingRooms"⟩,
  ⟨"GET", [.lit "rooms", .lit "active"], "activeRooms"⟩,
  ⟨"GET", [.lit "rooms", .lit "search"], "searchRooms"⟩,
  ⟨"GET", [.lit "stats"], "globalStats"⟩,
  ⟨"GET", [.lit "stats", .lit "languages"], "languageStats"⟩,
  ⟨"GET", [.lit "stats", .lit "skills"], "skillStats"⟩,
  ⟨"POST", [.lit "users", .param "userId", .lit "view"], "recordViewPost"⟩,
  ⟨"GET", [.lit "rooms", .param "roomId", .lit "analytics"], "roomAnalytics"⟩,
  ⟨"GET", [.lit "health"], "healthCheck"⟩]

/-- Express dispatch: the first registered route whose method and pattern
match the request wins. -/
def dispatch (method : String) (path : List String) : Option String :=
  (apiRoutes.find? fun r => r.method == method && routeMatches r.pattern path).map (·.handler)

/-! ## Positional placeholder scanner

`phNums q` lists, in order of appearance, the numbers of the `$n`
placeholders occurring in the SQL text `q`.  It is used to state the
builder invariant of §4.1: placeholders must be `$1 .. $len(params)`
with no gaps and no collisions. -/

/-- Scanner state: placeholders found so far, and the value of a
placeholder currently being read (digits after a `$`), if any. -/
def phStep (acc : List Nat × Option Nat) (c : Char) : List Nat × Option Nat :=
  match acc.2 with
  | none => if c == '$' then (acc.1, some 0) else (acc.1, none)
  | some n =>
      if c.isDigit then (acc.1, some (n * 10 + (c.toNat - 48)))
      else if c == '$' then (acc.1 ++ [n], some 0)
      else (acc.1 ++ [n], none)

/-- All `$n` placeholder numbers of a SQL string, in order of appearance. -/
def phNums (s : String) : List Nat :=
  match s.data.foldl phStep ([], none) with
  | (done, none) => done
  | (done, some n) => done ++ [n]

/-! ## Dynamic predicate builders (§4.1)

Each builder reassembles, verbatim, the WHERE clause and positional
parameter array of one endpoint.  Two bookkeeping styles occur in the
source: GET /users/:userId/rooms keeps a separate `paramCount` counter,
the other endpoints use `params.length` after pushing the value. -/

/-- Clause state of GET /users/:userId/rooms: `whereClause`, `params`,
`paramCount` (src/routes/api.js lines 226-228). -/
structure CountedClause where
  whereClause : String
  params : List String
  paramCount : Nat
deriving DecidableEq

/-- Clause state of the endpoints that track only `params.length`
(timeline, snapshots, trending). -/
structure ParamClause where
  whereClause : String
  params : List String
deriving DecidableEq

/-- WHERE-clause assembly of GET /users/:userId/rooms
(src/routes/api.js lines 226-240): base predicate `s.user_id = $1`, then
optional `language` and `skill_level` equality filters. -/
def userRoomsClause (userId : String) (language skill_level : Option String) :
    CountedClause :=
  let st : CountedClause := ⟨"s.user_id = $1", [userId], 1⟩
  let st :=
    if jsTruthyStr language then
      { whereClause := st.whereClause ++ " AND r.language = $" ++ toString (st.paramCount + 1)
        params := st.params ++ [language.getD ""]
        paramCount := st.paramCount + 1 }
    else st
  let st :=
    if jsTruthyStr skill_level then
      { whereClause := st.whereClause ++ " AND r.skill_level = $" ++ toString (st.paramCount + 1)
        params := st.params ++ [skill_level.getD ""]
        paramCount := st.paramCount + 1 }
    else st
  st

/-- Main query text of GET /users/:userId/rooms (src/routes/api.js lines
242-263), with `LIMIT $paramCount+1 OFFSET $paramCount+2` appended. -/
def userRoomsQuery (st : CountedClause) : String :=
  "SELECT r.room_id, r.language, r.second_language, r.skill_level, r.topic, " ++
  "r.is_active, r.current_users_count, r.max_capacity, " ++
  "MAX(s.joined_at) as last_visit, MIN(s.joined_at) as first_visit, " ++
  "COUNT(s.session_id) as total_visits, SUM(s.duration_seconds) as total_time_seconds, " ++
  "AVG(s.duration_seconds)::INTEGER as avg_session_duration " ++
  "FROM sessions s JOIN rooms r ON s.room_id = r.room_id WHERE " ++ st.whereClause ++
  " GROUP BY r.room_id, r.language, r.second_language, r.skill_level, r.topic, " ++
  "r.is_active, r.current_users_count, r.max_capacity ORDER BY last_visit DESC" ++
  " LIMIT $" ++ toString (st.paramCount + 1) ++ " OFFSET $" ++ toString (st.paramCount + 2)

/-- Parameter array passed with the main query: `params.push(limit, offset)`
(src/routes/api.js line 265). -/
def userRoomsMainParams (st : CountedClause) (limit offset : String) : List String :=
  st.params ++ [limit, offset]

/-- Count query of GET /users/:userId/rooms (src/routes/api.js lines
269-274): same predicate, no pagination. -/
def userRoomsCountQuery (st : CountedClause) : String :=
  "SELECT COUNT(DISTINCT s.room_id) as total FROM sessions s " ++
  "JOIN rooms r ON s.room_id = r.room_id WHERE " ++ st.whereClause

/-- Parameters of the count query: `params.slice(0, paramCount)`
(src/routes/api.js line 275). -/
def userRoomsCountParams (st : CountedClause) (limit offset : String) : List String :=
  (userRoomsMainParams st limit offset).take st.paramCount

/-- WHERE-clause assembly of GET /rooms/:roomId/snapshots
(src/routes/api.js lines 519-530): base `room_id = $1`, optional
`start_date` / `end_date` bounds on `snapshot_time`. -/
def snapshotsClause (roomId : String) (start_date end_date : Option String) :
    ParamClause :=
  let st : ParamClause := ⟨"room_id = $1", [roomId]⟩
  let st :=
    if jsTruthyStr start_date then
      let ps := st.params ++ [start_date.getD ""]
      { whereClause := st.whereClause ++ " AND snapshot_time >= $" ++ toString ps.length
        params := ps }
    else st
  let st :=
    if jsTruthyStr end_date then
      let ps := st.params ++ [end_date.getD ""]
      { whereClause := st.whereClause ++ " AND snapshot_time <= $" ++ toString ps.length
        params := ps }
    else st
  st

/-- Main query text of GET /rooms/:roomId/snapshots (src/routes/api.js
lines 532-544). -/
def snapshotsQuery (st : ParamClause) : String :=
  "SELECT snapshot_id, room_id, snapshot_time, participants_count, " ++
  "participants_json, is_active FROM room_snapshots WHERE " ++ st.whereClause ++
  " ORDER BY snapshot_time DESC LIMIT $" ++ toString (st.params.length + 1) ++
  " OFFSET $" ++ toString (st.params.length + 2)

/-- Parameter array of the snapshots main query (src/routes/api.js line
546). -/
def snapshotsMainParams (st : ParamClause) (limit offset : String) : List String :=
  st.params ++ [limit, offset]

/-- Count query of GET /rooms/:roomId/snapshots (src/routes/api.js lines
559-563). -/
def snapshotsCountQuery (st : ParamClause) : String :=
  "SELECT COUNT(*) as total FROM room_snapshots WHERE " ++ st.whereClause

/-- Parameters of the snapshots count query:
`params.slice(0, params.length - 2)` taken after limit and offset were
pushed (src/routes/api.js line 564). -/
def snapshotsCountParams (st : ParamClause) (limit offset : String) : List String :=
  let ps := snapshotsMainParams st limit offset
  ps.take (ps.length - 2)

/-- WHERE-clause assembly of GET /rooms/:roomId/timeline
(src/routes/api.js lines 473-479): base `s.room_id = $1`, optional
`event_type` filter restricted to the enum `join`/`leave`. -/
def timelineClause (roomId : String) (event_type : Option String) : ParamClause :=
  let st : ParamClause := ⟨"s.room_id = $1", [roomId]⟩
  if jsTruthyStr event_type &&
      (event_type.getD "" == "join" || event_type.getD "" == "leave") then
    let ps := st.params ++ [event_type.getD ""]
    { whereClause := st.whereClause ++ " AND s.event_type = $" ++ toString ps.length
      params := ps }
  else st

/-- Main query text of GET /rooms/:roomId/timeline (src/routes/api.js
lines 481-498). -/
def timelineQuery (st : ParamClause) : String :=
  "SELECT s.session_id, s.user_id, u.username, u.user_avatar, " ++
  "u.verification_status, s.joined_at, s.left_at, s.duration_seconds, " ++
  "s.event_type, s.is_currently_active FROM sessions s " ++
  "JOIN users u ON s.user_id = u.user_id WHERE " ++ st.whereClause ++
  " ORDER BY s.joined_at DESC LIMIT $" ++ toString (st.params.length + 1) ++
  " OFFSET $" ++ toString (st.params.length + 2)

/-- Parameter array of the timeline query (src/routes/api.js line 500). -/
def timelineMainParams (st : ParamClause) (limit offset : String) : List String :=
  st.params ++ [limit, offset]

/-- WHERE-clause assembly of GET /rooms/trending (src/routes/api.js lines
728-740): base relative-date window on `s.joined_at`, optional `language`
and `skill_level` filters. -/
def trendingClause (hours : String) (language skill_level : Option String) :
    ParamClause :=
  let st : ParamClause :=
    ⟨"s.joined_at >= NOW() - INTERVAL \x271 hour\x27 * $1", [hours]⟩
  let st :=
    if jsTruthyStr language then
      let ps := st.params ++ [language.getD ""]
      { whereClause := st.whereClause ++ " AND r.language = $" ++ toString ps.length
        params := ps }
    else st
  let st :=
    if jsTruthyStr skill_level then
      let ps := st.params ++ [skill_level.getD ""]
      { whereClause := st.whereClause ++ " AND r.skill_level = $" ++ toString ps.length
        params := ps }
    else st
  st

/-- Parameter array of the trending query: `params.push(limit)` happens
before the query text is built (src/routes/api.js line 742). -/
def trendingParams (st : ParamClause) (limit : String) : List String :=
  st.params ++ [limit]

/-- Main query text of GET /rooms/trending (src/routes/api.js lines
744-769); `LIMIT $params.length` refers to the array including `limit`. -/
def trendingQuery (st : ParamClause) (limit : String) : String :=
  "SELECT r.room_id, r.topic, r.language, r.second_language, r.skill_level, " ++
  "r.is_active, r.current_users_count, r.max_capacity, r.is_locked, " ++
  "r.creator_name, r.creator_avatar, r.creator_is_verified, " ++
  "COUNT(DISTINCT s.user_id) as unique_visitors, COUNT(s.session_id) as total_sessions, " ++
  "MAX(s.joined_at) as last_activity FROM rooms r " ++
  "JOIN sessions s ON r.room_id = s.room_id WHERE " ++ st.whereClause ++
  " GROUP BY r.room_id, r.topic, r.language, r.second_language, r.skill_level, " ++
  "r.is_active, r.current_users_count, r.max_capacity, r.is_locked, " ++
  "r.creator_name, r.creator_avatar, r.creator_is_verified " ++
  "ORDER BY unique_visitors DESC, total_sessions DESC LIMIT $" ++
  toString (trendingParams st limit).length

/-- WHERE-clause assembly of GET /rooms/active (src/routes/api.js lines
787-798): base `is_active = true` (no placeholder), optional `language`
and `skill_level` filters. -/
def activeRoomsClause (language skill_level : Option String) : ParamClause :=
  let st : ParamClause := ⟨"is_active = true", []⟩
  let st :=
    if jsTruthyStr language then
      let ps := st.params ++ [language.getD ""]
      { whereClause := st.whereClause ++ " AND language = $" ++ toString ps.length
        params := ps }
    else st
  let st :=
    if jsTruthyStr skill_level then
      let ps := st.params ++ [skill_level.getD ""]
      { whereClause := st.whereClause ++ " AND skill_level = $" ++ toString ps.length
        params := ps }
    else st
  st

/-- Parameter array of GET /rooms/active: `params.push(limit)` before the
query is built (line 807). -/
def activeRoomsParams (st : ParamClause) (limit : String) : List String :=
  st.params ++ [limit]

/-- The ORDER BY expression of GET /rooms/active (lines 800-805),
selected by the `sort` query parameter; it contributes no placeholder. -/
def activeRoomsOrderBy (sort : String) : String :=
  if sort == "recent" then "last_activity DESC"
  else if sort == "popular" then "current_users_count DESC, last_activity DESC"
  else "current_users_count DESC"

/-- Main query text of GET /rooms/active (lines 809-833). -/
def activeRoomsQuery (st : ParamClause) (sort limit : String) : String :=
  "SELECT room_id, topic, language, second_language, skill_level, " ++
  "current_users_count, max_capacity, is_full, is_empty, is_locked, " ++
  "mic_allowed, mic_required, no_mic, creator_name, creator_avatar, " ++
  "creator_is_verified, last_activity, allows_unlimited FROM rooms WHERE " ++
  st.whereClause ++ " ORDER BY " ++ activeRoomsOrderBy sort ++ " LIMIT $" ++
  toString (activeRoomsParams st limit).length

/-- Date filter and parameter array of GET /leaderboard/most-active
(src/routes/api.js lines 674-689): an optional relative-date window, then
`params.push(limit)`. -/
def mostActiveFilter (days : Option String) : ParamClause :=
  let st : ParamClause := ⟨"", []⟩
  if jsTruthyStr days then
    let ps := st.params ++ [days.getD ""]
    { whereClause := "WHERE s.joined_at >= NOW() - INTERVAL \x271 day\x27 * $" ++ toString ps.length
      params := ps }
  else st

/-- Parameter array of GET /leaderboard/most-active including `limit`. -/
def mostActiveParams (st : ParamClause) (limit : String) : List String :=
  st.params ++ [limit]

/-- The ORDER BY expression of GET /leaderboard/most-active (lines
682-687); it contributes no placeholder. -/
def mostActiveOrderBy (by_ : String) : String :=
  if by_ == "time" then "total_time_seconds DESC"
  else if by_ == "rooms" then "rooms_visited DESC"
  else "total_sessions DESC"

/-- Main query text of GET /leaderboard/most-active (lines 691-710); the
date filter is spliced in as a whole `WHERE ...` clause (or nothing). -/
def mostActiveQuery (st : ParamClause) (by_ limit : String) : String :=
  "SELECT u.user_id, u.username, u.user_avatar, u.verification_status, " ++
  "u.supporter_level, u.followers_count, COUNT(DISTINCT s.session_id) as total_sessions, " ++
  "COALESCE(SUM(s.duration_seconds), 0)::BIGINT as total_time_seconds, " ++
  "COUNT(DISTINCT s.room_id) as rooms_visited, MAX(s.joined_at) as last_active, " ++
  "AVG(s.duration_seconds)::INTEGER as avg_session_duration " ++
  "FROM users u JOIN sessions s ON u.user_id = s.user_id " ++ st.whereClause ++
  " GROUP BY u.user_id, u.username, u.user_avatar, u.verification_status, " ++
  "u.supporter_level, u.followers_count ORDER BY " ++ mostActiveOrderBy by_ ++
  " LIMIT $" ++ toString (mostActiveParams st limit).length

/-! ## Builder invariant lemmas (one per dynamically assembled endpoint) -/

set_option maxRecDepth 40000

theorem userRooms_placeholders (userId : String) (language skill_level : Option String)
    (limit offset : String) :
    phNums (userRoomsQuery (userRoomsClause userId language skill_level)) =
      List.range' 1 (userRoomsMainParams (userRoomsClause userId language skill_level) limit offset).length ∧
    phNums (userRoomsCountQuery (userRoomsClause userId language skill_level)) =
      List.range' 1 (userRoomsCountParams (userRoomsClause userId language skill_level) limit offset).length := by
  cases h1 : jsTruthyStr language <;> cases h2 : jsTruthyStr skill_level <;>
    refine ⟨?_, ?_⟩ <;>
      simp only [userRoomsClause, h1, h2, Bool.false_eq_true, if_false, if_true,
        userRoomsQuery, userRoomsCountQuery, userRoomsMainParams, userRoomsCountParams,
        List.length_append, List.length_cons, List.length_nil, List.take] <;>
      decide

theorem snapshots_placeholders (roomId : String) (start_date end_date : Option String)
    (limit offset : String) :
    phNums (snapshotsQuery (snapshotsClause roomId start_date end_date)) =
      List.range' 1 (snapshotsMainParams (snapshotsClause roomId start_date end_date) limit offset).length ∧
    phNums (snapshotsCountQuery (snapshotsClause roomId start_date end_date)) =
      List.range' 1 (snapshotsCountParams (snapshotsClause roomId start_date end_date) limit offset).length := by
  cases h1 : jsTruthyStr start_date <;> cases h2 : jsTruthyStr end_date <;>
    refine ⟨?_, ?_⟩ <;>
      simp only [snapshotsClause, h1, h2, Bool.false_eq_true, if_false, if_true,
        snapshotsQuery, snapshotsCountQuery, snapshotsMainParams, snapshotsCountParams,
        List.length_append, List.length_cons, List.length_nil, List.take] <;>
      decide

theorem timeline_placeholders (roomId : String) (event_type : Option String)
    (limit offset : String) :
    phNums (timelineQuery (timelineClause roomId event_type)) =
      List.range' 1 (timelineMainParams (timelineClause roomId event_type) limit offset).length := by
  cases h1 : (jsTruthyStr event_type &&
      (event_type.getD "" == "join" || event_type.getD "" == "leave")) <;>
    simp only [timelineClause, h1, Bool.false_eq_true, if_false, if_true,
      timelineQuery, timelineMainParams,
      List.length_append, List.length_cons, List.length_nil] <;>
    decide

theorem trending_placeholders (hours : String) (language skill_level : Option String)
    (limit : String) :
    phNums (trendingQuery (trendingClause hours language skill_level) limit) =
      List.range' 1 (trendingParams (trendingClause hours language skill_level) limit).length := by
  cases h1 : jsTruthyStr language <;> cases h2 : jsTruthyStr skill_level <;>
    simp only [trendingClause, h1, h2, Bool.false_eq_true, if_false, if_true,
      trendingQuery, trendingParams,
      List.length_append, List.length_cons, List.length_nil] <;>
    decide

theorem activeRooms_placeholders (language skill_level : Option String)
    (sort limit : String) :
    phNums (activeRoomsQuery (activeRoomsClause language skill_level) sort limit) =
      List.range' 1 (activeRoomsParams (activeRoomsClause language skill_level) limit).length := by
  cases h1 : jsTruthyStr language <;> cases h2 : jsTruthyStr skill_level <;>
    cases h3 : sort == "recent" <;> cases h4 : sort == "popular" <;>
    simp only [activeRoomsClause, activeRoomsQuery, activeRoomsOrderBy, activeRoomsParams,
      h1, h2, h3, h4, Bool.false_eq_true, if_false, if_true,
      List.length_append, List.length_cons, List.length_nil] <;>
    decide

theorem mostActive_placeholders (days : Option String) (by_ limit : String) :
    phNums (mostActiveQuery (mostActiveFilter days) by_ limit) =
      List.range' 1 (mostActiveParams (mostActiveFilter days) limit).length := by
  cases h1 : jsTruthyStr days <;>
    cases h3 : by_ == "time" <;> cases h4 : by_ == "rooms" <;>
    simp only [mostActiveFilter, mostActiveQuery, mostActiveOrderBy, mostActiveParams,
      h1, h3, h4, Bool.false_eq_true, if_false, if_true,
      List.length_append, List.length_cons, List.length_nil] <;>
    decide

/-- C1: for every subset of optional filters present or absent (language,
skill_level, event_type, date bounds), each dynamically assembled query
of src/routes/api.js carries exactly as many positional placeholders as
there are entries in its parameter array, numbered `$1..$n` in order with
no gaps and no collisions; the secondary count queries of
GET /users/:userId/rooms and GET /rooms/:roomId/snapshots reuse the same
predicate with the pagination parameters removed and keep the invariant. -/
theorem placeholder_count_invariant (userId roomId hours limit offset sort by_ : String)
    (language skill_level start_date end_date event_type days : Option String) :
    (phNums (userRoomsQuery (userRoomsClause userId language skill_level)) =
        List.range' 1 (userRoomsMainParams (userRoomsClause userId language skill_level) limit offset).length ∧
      phNums (userRoomsCountQuery (userRoomsClause userId language skill_level)) =
        List.range' 1 (userRoomsCountParams (userRoomsClause userId language skill_level) limit offset).length) ∧
    (phNums (snapshotsQuery (snapshotsClause roomId start_date end_date)) =
        List.range' 1 (snapshotsMainParams (snapshotsClause roomId start_date end_date) limit offset).length ∧
      phNums (snapshotsCountQuery (snapshotsClause roomId start_date end_date)) =
        List.range' 1 (snapshotsCountParams (snapshotsClause roomId start_date end_date) limit offset).length) ∧
    phNums (timelineQuery (timelineClause roomId event_type)) =
      List.range' 1 (timelineMainParams (timelineClause roomId event_type) limit offset).length ∧
    phNums (trendingQuery (trendingClause hours language skill_level) limit) =
      List.range' 1 (trendingParams (trendingClause hours language skill_level) limit).length ∧
    phNums (activeRoomsQuery (activeRoomsClause language skill_level) sort limit) =
      List.range' 1 (activeRoomsParams (activeRoomsClause language skill_level) limit).length ∧
    phNums (mostActiveQuery (mostActiveFilter days) by_ limit) =
      List.range' 1 (mostActiveParams (mostActiveFilter days) limit).length :=
  ⟨userRooms_placeholders userId language skill_level limit offset,
   snapshots_placeholders roomId start_date end_date limit offset,
   timeline_placeholders roomId event_type limit offset,
   trending_placeholders hours language skill_level limit,
   activeRooms_placeholders language skill_level sort limit,
   mostActive_placeholders days by_ limit⟩

/-- C4: contrary to the spec's endpoint table, GET requests to
/rooms/trending, /rooms/active and /rooms/search are captured by the
earlier-registered GET /rooms/:roomId route (src/routes/api.js line 329),
whose `:roomId` parameter matches the literal segments `trending`,
`active` and `search`; the dedicated discovery handlers registered later
(lines 724, 783, 847) are unreachable for these paths. -/
theorem rooms_discovery_routes_shadowed :
    dispatch "GET" ["rooms", "trending"] = some "getRoomDetails" ∧
    dispatch "GET" ["rooms", "active"] = some "getRoomDetails" ∧
    dispatch "GET" ["rooms", "search"] = some "getRoomDetails" ∧
    ¬ dispatch "GET" ["rooms", "trending"] = some "trendingRooms" ∧
    ¬ dispatch "GET" ["rooms", "active"] = some "activeRooms" ∧
    ¬ dispatch "GET" ["rooms", "search"] = some "searchRooms" := by
  decide

/-! ## Shared-rooms overlap aggregation (§4.4, src/routes/api.js 585-628)

For one room, `l1` and `l2` are the two users' session rows there; the
SQL join `sessions s1 × sessions s2` restricted to the room is the cross
product `l1 ×ˢ l2`.  `NOW()` is the explicit `now` argument. -/

/-- One `sessions` row as used by the shared-rooms query: id, interval
bounds; `left_at` is null while the session is ongoing. -/
structure SessRec where
  session_id : Nat
  joined_at : Int
  left_at : Option Int
deriving DecidableEq

/-- `COALESCE(s.left_at, NOW())`: the resolved end of a session. -/
def resolvedEnd (now : Int) (s : SessRec) : Int := s.left_at.getD now

/-- The interval-intersection test of the query:
`s1.joined_at <= COALESCE(s2.left_at, NOW()) AND s2.joined_at <= COALESCE(s1.left_at, NOW())`. -/
def overlapB (now : Int) (s1 s2 : SessRec) : Bool :=
  decide (s1.joined_at ≤ resolvedEnd now s2) && decide (s2.joined_at ≤ resolvedEnd now s1)

/-- All joined row pairs of the two users in one room. -/
def sessionPairs (l1 l2 : List SessRec) : List (SessRec × SessRec) := l1 ×ˢ l2

/-- `COUNT(DISTINCT s1.session_id)` over the joined rows. -/
def user1Sessions (l1 l2 : List SessRec) : Nat :=
  ((sessionPairs l1 l2).map fun p => p.1.session_id).dedup.length

/-- `COUNT(DISTINCT s2.session_id)` over the joined rows. -/
def user2Sessions (l1 l2 : List SessRec) : Nat :=
  ((sessionPairs l1 l2).map fun p => p.2.session_id).dedup.length

/-- `COUNT(DISTINCT CASE WHEN <overlap> THEN s1.session_id END)`: the
number of distinct first-user session ids among the overlapping pairs
(src/routes/api.js lines 599-603). -/
def overlapCount (now : Int) (l1 l2 : List SessRec) : Nat :=
  (((sessionPairs l1 l2).filter fun p => overlapB now p.1 p.2).map
    fun p => p.1.session_id).dedup.length

/-- `MAX(LEAST(COALESCE(s1.left_at, NOW()), COALESCE(s2.left_at, NOW())))`
over all joined rows (src/routes/api.js lines 604-607). -/
def lastOverlapTime (now : Int) (l1 l2 : List SessRec) : Option Int :=
  ((sessionPairs l1 l2).map fun p =>
    min (resolvedEnd now p.1) (resolvedEnd now p.2)).max?

/-- `MIN(GREATEST(s1.joined_at, s2.joined_at))` over all joined rows
(src/routes/api.js line 608). -/
def firstOverlapTime (_now : Int) (l1 l2 : List SessRec) : Option Int :=
  ((sessionPairs l1 l2).map fun p =>
    max p.1.joined_at p.2.joined_at).min?

/-- Modelled from the spec claim wording, for comparison with the code:
the number of session pairs (one session per user) whose intervals
intersect. -/
def specOverlapPairCount (now : Int) (l1 l2 : List SessRec) : Nat :=
  ((sessionPairs l1 l2).filter fun p => overlapB now p.1 p.2).length

/-- The aggregate row the shared-rooms endpoint produces for one room. -/
structure SharedRoomRow where
  user1_sessions : Nat
  user2_sessions : Nat
  overlap_count : Nat
  last_overlap_time : Option Int
  first_overlap_time : Option Int
deriving DecidableEq

/-- The shared-rooms aggregation for one room (src/routes/api.js lines
590-619, aggregate columns). -/
def sharedRoomAgg (now : Int) (l1 l2 : List SessRec) : SharedRoomRow :=
  { user1_sessions := user1Sessions l1 l2
    user2_sessions := user2Sessions l1 l2
    overlap_count := overlapCount now l1 l2
    last_overlap_time := lastOverlapTime now l1 l2
    first_overlap_time := firstOverlapTime now l1 l2 }

/-- The field swap under which the spec asserts `shared(A,B) = shared(B,A)`. -/
def swapUsers (r : SharedRoomRow) : SharedRoomRow :=
  { r with user1_sessions := r.user2_sessions, user2_sessions := r.user1_sessions }

/-- The `HAVING` threshold of the shared-rooms query (line 613-617). -/
def sharedRoomPasses (minOverlaps : Nat) (row : SharedRoomRow) : Bool :=
  decide (minOverlaps ≤ row.overlap_count)

/-! ### Membership-based characterizations of SQL MAX / MIN -/

instance : Std.Antisymm (fun a b : Int => a ≤ b) :=
  ⟨fun h h' => Int.le_antisymm h h'⟩

theorem int_max?_eq_some_iff {xs : List Int} {a : Int} :
    xs.max? = some a ↔ a ∈ xs ∧ ∀ b ∈ xs, b ≤ a :=
  List.max?_eq_some_iff (fun _ => le_refl _) (fun a b => max_choice a b)
    (fun _ _ _ => max_le_iff)

theorem int_min?_eq_some_iff {xs : List Int} {a : Int} :
    xs.min? = some a ↔ a ∈ xs ∧ ∀ b ∈ xs, a ≤ b :=
  List.min?_eq_some_iff (fun _ => le_refl _) (fun a b => min_choice a b)
    (fun _ _ _ => le_min_iff)

theorem max?_congr_mem {l₁ l₂ : List Int} (h : ∀ a, a ∈ l₁ ↔ a ∈ l₂) :
    l₁.max? = l₂.max? := by
  cases e : l₁.max? with
  | none =>
      rw [List.max?_eq_none_iff] at e
      have h₂ : l₂ = [] := by
        rw [List.eq_nil_iff_forall_not_mem]
        intro a ha
        have := (h a).2 ha
        simp [e] at this
      rw [h₂]
      simp
  | some a =>
      rw [int_max?_eq_some_iff] at e
      exact (int_max?_eq_some_iff.2
        ⟨(h a).1 e.1, fun b hb => e.2 b ((h b).2 hb)⟩).symm

theorem min?_congr_mem {l₁ l₂ : List Int} (h : ∀ a, a ∈ l₁ ↔ a ∈ l₂) :
    l₁.min? = l₂.min? := by
  cases e : l₁.min? with
  | none =>
      rw [List.min?_eq_none_iff] at e
      have h₂ : l₂ = [] := by
        rw [List.eq_nil_iff_forall_not_mem]
        intro a ha
        have := (h a).2 ha
        simp [e] at this
      rw [h₂]
      simp
  | some a =>
      rw [int_min?_eq_some_iff] at e
      exact (int_min?_eq_some_iff.2
        ⟨(h a).1 e.1, fun b hb => e.2 b ((h b).2 hb)⟩).symm

/-! ### Symmetry facts about the shared-rooms aggregates -/

theorem userSessions_symm (l1 l2 : List SessRec) :
    user1Sessions l2 l1 = user2Sessions l1 l2 := by
  unfold user1Sessions user2Sessions sessionPairs
  rw [← List.card_toFinset, ← List.card_toFinset]
  congr 1
  ext a
  simp only [List.mem_toFinset, List.mem_map, Prod.exists, List.mem_product]
  constructor
  · rintro ⟨x, y, ⟨hx, hy⟩, rfl⟩
    exact ⟨y, x, ⟨hy, hx⟩, rfl⟩
  · rintro ⟨x, y, ⟨hx, hy⟩, rfl⟩
    exact ⟨y, x, ⟨hy, hx⟩, rfl⟩

theorem overlapB_symm (now : Int) (s1 s2 : SessRec) :
    overlapB now s2 s1 = overlapB now s1 s2 := by
  simp [overlapB, Bool.and_comm]

theorem lastOverlap_symm (now : Int) (l1 l2 : List SessRec) :
    lastOverlapTime now l2 l1 = lastOverlapTime now l1 l2 := by
  unfold lastOverlapTime sessionPairs
  apply max?_congr_mem
  intro a
  simp only [List.mem_map, Prod.exists, List.mem_product]
  constructor
  · rintro ⟨x, y, ⟨hx, hy⟩, rfl⟩
    exact ⟨y, x, ⟨hy, hx⟩, min_comm _ _⟩
  · rintro ⟨x, y, ⟨hx, hy⟩, rfl⟩
    exact ⟨y, x, ⟨hy, hx⟩, min_comm _ _⟩

theorem firstOverlap_symm (now : Int) (l1 l2 : List SessRec) :
    firstOverlapTime now l2 l1 = firstOverlapTime now l1 l2 := by
  unfold firstOverlapTime sessionPairs
  apply min?_congr_mem
  intro a
  simp only [List.mem_map, Prod.exists, List.mem_product]
  constructor
  · rintro ⟨x, y, ⟨hx, hy⟩, rfl⟩
    exact ⟨y, x, ⟨hy, hx⟩, max_comm _ _⟩
  · rintro ⟨x, y, ⟨hx, hy⟩, rfl⟩
    exact ⟨y, x, ⟨hy, hx⟩, max_comm _ _⟩

/-- The characterization used by the amended C2: the code's
`COUNT(DISTINCT CASE ...)` equals the number of distinct user-1 sessions
that overlap at least one user-2 session. -/
theorem overlapCount_eq_distinct (now : Int) (l1 l2 : List SessRec) :
    overlapCount now l1 l2 =
      ((l1.filter fun s1 => l2.any fun s2 => overlapB now s1 s2).map
        fun s => s.session_id).dedup.length := by
  unfold overlapCount sessionPairs
  rw [← List.card_toFinset, ← List.card_toFinset]
  congr 1
  ext a
  simp only [List.mem_toFinset, List.mem_map, List.mem_filter, Prod.exists,
    List.mem_product, List.any_eq_true]
  constructor
  · rintro ⟨x, y, ⟨⟨hx, hy⟩, hov⟩, rfl⟩
    exact ⟨x, ⟨hx, y, hy, hov⟩, rfl⟩
  · rintro ⟨x, ⟨hx, y, hy, hov⟩, rfl⟩
    exact ⟨x, y, ⟨⟨hx, hy⟩, hov⟩, rfl⟩

/-- C2 counterexample: one user-A session `[0,100]` and two user-B
sessions `[10,20]`, `[30,40]` give two overlapping session pairs, but the
endpoint's `COUNT(DISTINCT CASE WHEN ... THEN s1.session_id END)` reports
`overlap_count = 1`, refuting the claim that `overlap_count` equals the
number of overlapping session pairs. -/
theorem overlap_count_not_pair_count :
    specOverlapPairCount 1000 [⟨1, 0, some 100⟩] [⟨10, 10, some 20⟩, ⟨11, 30, some 40⟩] = 2 ∧
    overlapCount 1000 [⟨1, 0, some 100⟩] [⟨10, 10, some 20⟩, ⟨11, 30, some 40⟩] = 1 := by
  decide

/-- C2 (amended): `overlap_count` equals the number of distinct user-1
sessions having at least one overlapping user-2 session under the test
`s1.joined_at <= COALESCE(s2.left_at, NOW()) AND s2.joined_at <=
COALESCE(s1.left_at, NOW())`; and for exactly one session each with
intervals `[10:00,10:30]` and `[10:15,10:45]` (minutes 600-630 and
615-645) the endpoint reports `overlap_count = 1` and
`last_overlap_time = 10:30` (minute 630). -/
theorem shared_overlap_count_spec (now : Int) (l1 l2 : List SessRec) :
    overlapCount now l1 l2 =
      ((l1.filter fun s1 => l2.any fun s2 => overlapB now s1 s2).map
        fun s => s.session_id).dedup.length ∧
    overlapCount 1000 [⟨1, 600, some 630⟩] [⟨2, 615, some 645⟩] = 1 ∧
    lastOverlapTime 1000 [⟨1, 600, some 630⟩] [⟨2, 615, some 645⟩] = some 630 :=
  ⟨overlapCount_eq_distinct now l1 l2, by decide, by decide⟩

/-- C3 counterexample: with user A having one session `[0,100]` and user B
two sessions `[10,20]`, `[30,40]` in the same room, `shared(A,B)` reports
`overlap_count = 1` while `shared(B,A)` reports `overlap_count = 2`, so the
swapped results differ (and differ in which rooms pass a `min_overlaps = 2`
threshold). -/
theorem shared_rooms_not_symmetric :
    ¬ sharedRoomAgg 1000 [⟨10, 10, some 20⟩, ⟨11, 30, some 40⟩] [⟨1, 0, some 100⟩] =
        swapUsers (sharedRoomAgg 1000 [⟨1, 0, some 100⟩] [⟨10, 10, some 20⟩, ⟨11, 30, some 40⟩]) ∧
    overlapCount 1000 [⟨1, 0, some 100⟩] [⟨10, 10, some 20⟩, ⟨11, 30, some 40⟩] = 1 ∧
    overlapCount 1000 [⟨10, 10, some 20⟩, ⟨11, 30, some 40⟩] [⟨1, 0, some 100⟩] = 2 ∧
    sharedRoomPasses 2 (sharedRoomAgg 1000 [⟨1, 0, some 100⟩] [⟨10, 10, some 20⟩, ⟨11, 30, some 40⟩]) = false ∧
    sharedRoomPasses 2 (sharedRoomAgg 1000 [⟨10, 10, some 20⟩, ⟨11, 30, some 40⟩] [⟨1, 0, some 100⟩]) = true := by
  decide

/-- C3 (amended): swapping the two user identities swaps
`user1_sessions`/`user2_sessions` and preserves `first_overlap_time` and
`last_overlap_time`, but `overlap_count` is not symmetric in general: it
counts distinct first-user sessions, so the rooms passing the
`min_overlaps` threshold and their order may differ between
`shared(A,B)` and `shared(B,A)`. -/
theorem shared_rooms_swap_symmetry (now : Int) (l1 l2 : List SessRec) :
    user1Sessions l2 l1 = user2Sessions l1 l2 ∧
    user2Sessions l2 l1 = user1Sessions l1 l2 ∧
    lastOverlapTime now l2 l1 = lastOverlapTime now l1 l2 ∧
    firstOverlapTime now l2 l1 = firstOverlapTime now l1 l2 :=
  ⟨userSessions_symm l1 l2, (userSessions_symm l2 l1).symm,
   lastOverlap_symm now l1 l2, firstOverlap_symm now l1 l2⟩

/-! ## Table rows (§3 data model, as consumed by the queries) -/

/-- One `users` row (columns used by the handlers; nullable numeric
metrics are `Option Int`). -/
structure UserRow where
  user_id : String
  username : String
  user_avatar : Option String
  followers_count : Option Int
  following_count : Option Int
  friends_count : Option Int
  supporter_level : Option Int
  verification_status : Option String
  first_seen : Option Int
  last_seen : Option Int
  profile_views_count : Option Int
  total_sessions : Option Int
  total_duration_seconds : Option Int
deriving DecidableEq

/-- One `sessions` row (columns used by the handlers). -/
structure SessionRow where
  session_id : Nat
  user_id : String
  room_id : String
  joined_at : Int
  left_at : Option Int
  duration_seconds : Option Int
  is_currently_active : Bool
  event_type : Option String
deriving DecidableEq

/-- One `rooms` row (columns used by the handlers). -/
structure RoomRow where
  room_id : String
  language : Option String
  second_language : Option String
  skill_level : Option String
  topic : Option String
  is_active : Bool
  is_full : Bool
  current_users_count : Option Int
  max_capacity : Option Int
  last_activity : Option Int
deriving DecidableEq

/-! ## SQL aggregate semantics over nullable columns -/

/-- SQL `SUM` over a nullable integer column: nulls are ignored, and the
sum over no non-null values is NULL. -/
def sqlSum (l : List (Option Int)) : Option Int :=
  let xs := l.filterMap id
  if xs.isEmpty then none else some xs.sum

/-- SQL `AVG(col)::INTEGER` over a nullable integer column: nulls are
ignored, the average over no non-null values is NULL.  The cast of the
numeric average to integer is modelled as integer division; no claim in
this development depends on the rounding mode. -/
def sqlAvgInt (l : List (Option Int)) : Option Int :=
  let xs := l.filterMap id
  if xs.isEmpty then none else some (xs.sum / (xs.length : Int))

/-- SQL `LIKE` matching: `%` matches any sequence, `_` any single
character, all other pattern characters match literally.  The `fuel`
argument makes the recursion structural (every step shrinks the combined
length of pattern and text, so `|pattern| + |text| + 1` fuel suffices). -/
def likeMatchFuel : Nat → List Char → List Char → Bool
  | 0, _, _ => false
  | _ + 1, [], s => s.isEmpty
  | fuel + 1, '%' :: ps, s =>
      likeMatchFuel fuel ps s ||
        (match s with
         | [] => false
         | _ :: cs => likeMatchFuel fuel ('%' :: ps) cs)
  | fuel + 1, '_' :: ps, s =>
      (match s with
       | [] => false
       | _ :: cs => likeMatchFuel fuel ps cs)
  | fuel + 1, p :: ps, s =>
      (match s with
       | [] => false
       | c :: cs => p == c && likeMatchFuel fuel ps cs)

/-- `text LIKE pattern` on whole strings. -/
def sqlLike (text pattern : String) : Bool :=
  likeMatchFuel (pattern.data.length + text.data.length + 1) pattern.data text.data

/-- SQL `LOWER` / JS `toLowerCase`, character by character. -/
def sqlLower (s : String) : String :=
  String.mk (s.data.map Char.toLower)

/-! ## GET /users/search (src/routes/api.js 32-78) -/

/-- The WHERE predicate:
`LOWER(username) LIKE LOWER($1) OR LOWER(user_id) LIKE LOWER($1)` where
`$1` is the wrapped wildcard pattern `%q%` (line 67). -/
def userSearchWhere (q : String) (u : UserRow) : Bool :=
  sqlLike (sqlLower u.username) (sqlLower ("%" ++ q ++ "%")) ||
  sqlLike (sqlLower u.user_id) (sqlLower ("%" ++ q ++ "%"))

/-- The relevance tier of the ORDER BY CASE (lines 57-61): 1 for an exact
case-insensitive username match against `$2 = q`, 2 for a prefix match
against `$3 = q%`, 3 otherwise. -/
def userSearchTier (q : String) (u : UserRow) : Nat :=
  if sqlLower u.username == sqlLower q then 1
  else if sqlLike (sqlLower u.username) (sqlLower (q ++ "%")) then 2
  else 3

/-- Sort key of `<col> DESC NULLS LAST` on a nullable integer column:
non-null values first (flag 0) ordered by negated value, nulls last. -/
def descNullsLastKey (o : Option Int) : Lex (Nat × Int) :=
  toLex (if o.isSome then 0 else 1, -(o.getD 0))

/-- The full ORDER BY sort key (lines 56-63): tier, then
`followers_count DESC NULLS LAST`, then `total_sessions DESC NULLS LAST`,
compared lexicographically. -/
def userSearchKey (q : String) (u : UserRow) : Lex (Nat × Lex (Lex (Nat × Int) × Lex (Nat × Int))) :=
  toLex (userSearchTier q u,
    toLex (descNullsLastKey u.followers_count, descNullsLastKey u.total_sessions))

/-- The row ordering produced by the ORDER BY clause. -/
def userSearchLE (q : String) (u v : UserRow) : Prop :=
  userSearchKey q u ≤ userSearchKey q v

instance (q : String) : DecidableRel (userSearchLE q) := fun u v =>
  inferInstanceAs (Decidable (userSearchKey q u ≤ userSearchKey q v))

/-- The GET /users/search handler: minimum-length guard (lines 36-38),
WHERE filter, ORDER BY, LIMIT.  The first component lists the queries
dispatched to the connection pool (empty when the guard short-circuits). -/
def searchUsersHandler (q : Option String) (limit : Nat) (users : List UserRow) :
    List String × List UserRow :=
  if jsTruthyStr q = false ∨ (q.getD "").length < 2 then ([], [])
  else
    let qs := q.getD ""
    (["users.search"],
      (List.insertionSort (userSearchLE qs) (users.filter (userSearchWhere qs))).take limit)

/-! ## GET /rooms/search (src/routes/api.js 847-889) -/

/-- `LOWER(col) LIKE LOWER(pattern)` on a nullable column: NULL input
yields SQL NULL (three-valued logic). -/
def sqlLike3 (col : Option String) (pattern : String) : Option Bool :=
  col.map fun s => sqlLike (sqlLower s) (sqlLower pattern)

/-- SQL three-valued `OR`. -/
def sqlOr3 : Option Bool → Option Bool → Option Bool
  | some true, _ => some true
  | _, some true => some true
  | some false, some false => some false
  | _, _ => none

/-- The WHERE predicate of GET /rooms/search (lines 855-858): substring
match on topic or language, with an `is_active` conjunct when
`active_only === 'true'`; a row is kept when the predicate is SQL-true. -/
def roomSearchWhere (q : String) (active_only : String) (r : RoomRow) : Bool :=
  let m := sqlOr3 (sqlLike3 r.topic ("%" ++ q ++ "%")) (sqlLike3 r.language ("%" ++ q ++ "%"))
  let base := m == some true
  if active_only == "true" then base && r.is_active else base

/-- Sort key of `<col> DESC` on a nullable integer column with
PostgreSQL's default NULLS FIRST for descending order. -/
def descNullsFirstKey (o : Option Int) : Lex (Nat × Int) :=
  toLex (if o.isSome then 1 else 0, -(o.getD 0))

/-- The ORDER BY key of GET /rooms/search (lines 875-878):
`is_active DESC, current_users_count DESC, last_activity DESC`. -/
def roomSearchKey (r : RoomRow) : Lex (Nat × Lex (Lex (Nat × Int) × Lex (Nat × Int))) :=
  toLex ((if r.is_active then 0 else 1),
    toLex (descNullsFirstKey r.current_users_count, descNullsFirstKey r.last_activity))

/-- The row ordering of GET /rooms/search. -/
def roomSearchLE (u v : RoomRow) : Prop :=
  roomSearchKey u ≤ roomSearchKey v

instance : DecidableRel roomSearchLE := fun u v =>
  inferInstanceAs (Decidable (roomSearchKey u ≤ roomSearchKey v))

/-- The GET /rooms/search handler: minimum-length guard (lines 851-853),
WHERE filter, ORDER BY, LIMIT; first component as in
`searchUsersHandler`. -/
def searchRoomsHandler (q : Option String) (limit : Nat) (active_only : String)
    (rooms : List RoomRow) : List String × List RoomRow :=
  if jsTruthyStr q = false ∨ (q.getD "").length < 2 then ([], [])
  else
    let qs := q.getD ""
    (["rooms.search"],
      (List.insertionSort roomSearchLE (rooms.filter (roomSearchWhere qs active_only))).take limit)

/-! ## Concrete rows for the search scenarios -/

/-- Scenario user "alice" with 100 followers (spec §8). -/
def aliceRow : UserRow :=
  { user_id := "u-alice", username := "alice", user_avatar := none,
    followers_count := some 100, following_count := none, friends_count := none,
    supporter_level := none, verification_status := none, first_seen := none,
    last_seen := none, profile_views_count := none, total_sessions := some 10,
    total_duration_seconds := none }

/-- Scenario user "alice99" with 500 followers (spec §8). -/
def alice99Row : UserRow :=
  { user_id := "u-alice99", username := "alice99", user_avatar := none,
    followers_count := some 500, following_count := none, friends_count := none,
    supporter_level := none, verification_status := none, first_seen := none,
    last_seen := none, profile_views_count := none, total_sessions := some 50,
    total_duration_seconds := none }

/-- A sample active room used to exercise the search guard. -/
def sampleRoom : RoomRow :=
  { room_id := "r-sample", language := some "English", second_language := none,
    skill_level := some "Any", topic := some "chat", is_active := true,
    is_full := false, current_users_count := some 3, max_capacity := some 10,
    last_activity := some 900 }

/-- C6: user-search results are ordered first by tier (exact
case-insensitive username match, then prefix match, then other substring
matches), then `followers_count DESC NULLS LAST`, then
`total_sessions DESC NULLS LAST`; in particular searching `q="alice"`
over users "alice" (100 followers) and "alice99" (500 followers) returns
"alice" first. -/
theorem user_search_ranking :
    (∀ q limit users,
      List.Pairwise (userSearchLE q) (searchUsersHandler (some q) limit users).2) ∧
    searchUsersHandler (some "alice") 20 [alice99Row, aliceRow] =
      (["users.search"], [aliceRow, alice99Row]) := by
  constructor
  · intro q limit users
    by_cases hc : jsTruthyStr (some q) = false ∨ q.length < 2
    · simp [searchUsersHandler, hc]
    · haveI : IsTrans UserRow (userSearchLE q) := ⟨fun _ _ _ hab hbc => le_trans hab hbc⟩
      haveI : IsTotal UserRow (userSearchLE q) := ⟨fun _ _ => le_total _ _⟩
      simp only [searchUsersHandler, Option.getD_some]
      rw [if_neg hc]
      exact List.Pairwise.sublist (List.take_sublist _ _)
        (List.sorted_insertionSort (userSearchLE q) _)
  · decide

/-- C9: a search request (users or rooms) whose query string is missing
or shorter than 2 characters returns the empty list and dispatches no
query to the connection pool. -/
theorem short_search_returns_empty (q : Option String) (limitU limitR : Nat)
    (active_only : String) (users : List UserRow) (rooms : List RoomRow)
    (h : q = none ∨ (q.getD "").length < 2) :
    searchUsersHandler q limitU users = ([], []) ∧
    searchRoomsHandler q limitR active_only rooms = ([], []) := by
  have hg : jsTruthyStr q = false ∨ (q.getD "").length < 2 := by
    rcases h with rfl | hlen
    · exact Or.inl rfl
    · exact Or.inr hlen
  constructor <;> simp [searchUsersHandler, searchRoomsHandler, hg]

/-- Witness for C9 at the one-character query `"a"` over nonempty tables. -/
theorem short_search_returns_empty_check :
    searchUsersHandler (some "a") 20 [aliceRow] = ([], []) ∧
    searchRoomsHandler (some "a") 20 "false" [sampleRoom] = ([], []) :=
  short_search_returns_empty (some "a") 20 20 "false" [aliceRow] [sampleRoom]
    (Or.inr (by decide))

/-! ## Profile view recording (src/routes/api.js 12-27, §4.5) -/

/-- The request attributes read by `recordProfileView`. -/
structure Req where
  ip : Option String
  remoteAddress : Option String
  userAgent : Option String
deriving DecidableEq

/-- `req.ip || req.connection.remoteAddress || 'unknown'` (line 14). -/
def resolveViewerIp (req : Req) : String :=
  if jsTruthyStr req.ip then req.ip.getD ""
  else if jsTruthyStr req.remoteAddress then req.remoteAddress.getD ""
  else "unknown"

/-- `req.get('User-Agent') || 'Unknown'` (line 15). -/
def resolveViewerUA (req : Req) : String :=
  if jsTruthyStr req.userAgent then req.userAgent.getD "" else "Unknown"

/-- A `profile_views` row as inserted (the `viewed_at` timestamp is
`NOW()` and carries no information for the claims). -/
structure ProfileViewRow where
  viewed_user_id : String
  viewer_ip : String
  viewer_user_agent : String
deriving DecidableEq

/-- Outcome of the INSERT at the storage layer. -/
inductive DbResult
  | ok
  | conflict
  | failure
deriving DecidableEq

/-- The INSERT of lines 17-22: values are truncated with
`substring(0, 50)` / `substring(0, 255)`; `ON CONFLICT DO NOTHING`
turns a duplicate conflict into a no-op; any other failure raises. -/
def insertProfileView (userId : String) (req : Req) (db : DbResult) :
    Except String (Option ProfileViewRow) :=
  let row : ProfileViewRow :=
    ⟨userId, jsSubstring (resolveViewerIp req) 50, jsSubstring (resolveViewerUA req) 255⟩
  match db with
  | .ok => .ok (some row)
  | .conflict => .ok none
  | .failure => .error "insert failed"

/-- What `recordProfileView` did: the row inserted (if any) and whether
an exception escaped to the caller. -/
structure RecordOutcome where
  inserted : Option ProfileViewRow
  raised : Bool
deriving DecidableEq

/-- `recordProfileView` (lines 12-27): the try/catch swallows every
insert failure, so no exception ever escapes. -/
def recordProfileView (userId : String) (req : Req) (db : DbResult) : RecordOutcome :=
  match insertProfileView userId req db with
  | .ok r => ⟨r, false⟩
  | .error _ => ⟨none, false⟩

/-! ## GET /users/:userId (src/routes/api.js 83-177) -/

/-- The row the user statistics query produces (lines 119-129). -/
structure ProfileStats where
  total_rooms_visited : Option Int
  total_sessions : Option Int
  total_duration_seconds : Option Int
  avg_session_duration : Option Int
  last_active : Option Int
  is_currently_active : Option Bool
deriving DecidableEq

/-- The statistics query over `sessions WHERE user_id = $1` (lines
119-129): distinct counts, `COALESCE(SUM(...), 0)`,
`COALESCE(AVG(...), 0)::INTEGER`, `MAX(joined_at)`, and
`COUNT(CASE WHEN is_currently_active THEN 1 END) > 0`. -/
def userStatsRow (userId : String) (sessions : List SessionRow) : ProfileStats :=
  let ss := sessions.filter fun s => s.user_id == userId
  { total_rooms_visited := some ((ss.map (·.room_id)).dedup.length : Int)
    total_sessions := some ((ss.map (·.session_id)).dedup.length : Int)
    total_duration_seconds := some ((sqlSum (ss.map (·.duration_seconds))).getD 0)
    avg_session_duration := some ((sqlAvgInt (ss.map (·.duration_seconds))).getD 0)
    last_active := (ss.map (·.joined_at)).max?
    is_currently_active := some (decide (0 < (ss.filter (·.is_currently_active)).length)) }

/-- The favorite-language query (lines 134-144): the user's sessions are
joined to rooms, grouped by `r.language`, ordered by visit count
descending, and the top row's language is taken (`rows[0]?.language ||
null`).  SQL leaves the order among equal counts unspecified; the sort
below is one consistent choice. -/
def favoriteLanguage (userId : String) (sessions : List SessionRow)
    (rooms : List RoomRow) : Option String :=
  let langs := (sessions.filter fun s => s.user_id == userId).filterMap
    fun s => (rooms.find? fun r => r.room_id == s.room_id).map (·.language)
  let grouped := langs.dedup.map fun l => (l, (langs.filter (· == l)).length)
  match (List.insertionSort (fun a b : Option String × Nat => b.2 ≤ a.2) grouped).head? with
  | none => none
  | some (l, _) => jsOrNullStr l

/-- JS `a || b` between two nullable timestamp columns, as in
`stats.last_active || user.last_seen` (line 168): the driver returns
timestamps as `Date` objects, which are truthy exactly when present. -/
def jsOrDate (a b : Option Int) : Option Int :=
  if a.isSome then a else b

/-- JS `a || false` on a nullable boolean, as in
`stats.is_currently_active || false` (line 169). -/
def jsOrBoolFalse : Option Bool → Bool
  | some true => true
  | _ => false

/-- The JSON body of GET /users/:userId (lines 151-171): the user row
spread, the null-coalesced numeric overrides, and the computed
`statistics` block (`st_` fields). -/
structure ProfileResponse where
  user_id : String
  username : String
  user_avatar : Option String
  verification_status : Option String
  first_seen : Option Int
  last_seen : Option Int
  followers_count : Option Int
  following_count : Option Int
  friends_count : Option Int
  supporter_level : Option Int
  profile_views_count : Option Int
  total_sessions : Option Int
  total_duration_seconds : Option Int
  st_total_rooms_visited : Option Int
  st_total_sessions : Option Int
  st_total_duration_seconds : Option Int
  st_avg_session_duration : Option Int
  st_favorite_language : Option String
  st_last_active : Option Int
  st_is_currently_active : Bool
deriving DecidableEq

/-- The response shaping of lines 151-171. -/
def shapeUserProfile (u : UserRow) (stats : ProfileStats) (fav : Option String) :
    ProfileResponse :=
  { user_id := u.user_id
    username := u.username
    user_avatar := u.user_avatar
    verification_status := u.verification_status
    first_seen := u.first_seen
    last_seen := u.last_seen
    followers_count := jsOrInt u.followers_count 0
    following_count := jsOrInt u.following_count 0
    friends_count := jsOrInt u.friends_count 0
    supporter_level := jsOrInt u.supporter_level 0
    profile_views_count := jsOrInt u.profile_views_count 0
    total_sessions := jsOrInt u.total_sessions 0
    total_duration_seconds := jsOrInt u.total_duration_seconds 0
    st_total_rooms_visited := jsParseIntOr0 stats.total_rooms_visited
    st_total_sessions := jsParseIntOr0 stats.total_sessions
    st_total_duration_seconds := jsParseIntOr0 stats.total_duration_seconds
    st_avg_session_duration := jsParseIntOr0 stats.avg_session_duration
    st_favorite_language := fav
    st_last_active := jsOrDate stats.last_active u.last_seen
    st_is_currently_active := jsOrBoolFalse stats.is_currently_active }

/-- `u.user_id = $1 OR LOWER(u.username) = LOWER($1)` (line 107). -/
def userMatchesParam (param : String) (u : UserRow) : Bool :=
  u.user_id == param || sqlLower u.username == sqlLower param

/-- The user lookup of lines 89-116: the table rows matching the path
parameter, in table order, with `rows[0]` taken. -/
def lookupUser (param : String) (users : List UserRow) : Option UserRow :=
  (users.filter (userMatchesParam param)).head?

/-- Observable result of the GET /users/:userId handler: HTTP status,
response body, the user ids the statistics and favorite-language queries
were keyed on, and the profile-view row inserted (if any). -/
structure GetUserResult where
  status : Nat
  body : Option ProfileResponse
  statsKey : Option String
  favLangKey : Option String
  recordedView : Option ProfileViewRow
deriving DecidableEq

/-- GET /users/:userId (lines 83-177): resolve the user by id or
case-insensitive username, 404 when absent; otherwise key the statistics
query, the favorite-language query and the optional view recording on the
resolved row's `user_id` and shape the response. -/
def getUserHandler (param record_view : String) (req : Req) (db : DbResult)
    (users : List UserRow) (sessions : List SessionRow) (rooms : List RoomRow) :
    GetUserResult :=
  match lookupUser param users with
  | none => ⟨404, none, none, none, none⟩
  | some u =>
      let stats := userStatsRow u.user_id sessions
      let fav := favoriteLanguage u.user_id sessions rooms
      let recorded :=
        if record_view == "true" then (recordProfileView u.user_id req db).inserted
        else none
      ⟨200, some (shapeUserProfile u stats fav), some u.user_id, some u.user_id, recorded⟩

/-! ## GET /users/:userId/rooms row aggregation (src/routes/api.js
242-266): the handler returns `result.rows` unshaped, so the SQL
aggregates appear in the response as produced. -/

/-- One response row of GET /users/:userId/rooms (lines 243-256). -/
structure UserRoomsRow where
  room_id : String
  language : Option String
  second_language : Option String
  skill_level : Option String
  topic : Option String
  is_active : Bool
  current_users_count : Option Int
  max_capacity : Option Int
  last_visit : Option Int
  first_visit : Option Int
  total_visits : Nat
  total_time_seconds : Option Int
  avg_session_duration : Option Int
deriving DecidableEq

/-- The per-room aggregation of GET /users/:userId/rooms for one room
group: `SUM(s.duration_seconds)` and `AVG(s.duration_seconds)::INTEGER`
have no COALESCE, so they are NULL when every grouped duration is NULL. -/
def userRoomsAggRow (r : RoomRow) (ss : List SessionRow) : UserRoomsRow :=
  { room_id := r.room_id
    language := r.language
    second_language := r.second_language
    skill_level := r.skill_level
    topic := r.topic
    is_active := r.is_active
    current_users_count := r.current_users_count
    max_capacity := r.max_capacity
    last_visit := (ss.map (·.joined_at)).max?
    first_visit := (ss.map (·.joined_at)).min?
    total_visits := ss.length
    total_time_seconds := sqlSum (ss.map (·.duration_seconds))
    avg_session_duration := sqlAvgInt (ss.map (·.duration_seconds)) }

/-- An ongoing session in `sampleRoom` whose `duration_seconds` is still
NULL. -/
def ongoingSession : SessionRow :=
  ⟨1, "u1", "r-sample", 600, none, none, true, some "join"⟩

/-! ## GET /rooms/:roomId statistics (src/routes/api.js 374-403) -/

/-- `COUNT(CASE WHEN is_currently_active THEN 1 END)` over the room's
sessions (line 382). -/
def currentlyActiveUsers (roomId : String) (sessions : List SessionRow) : Nat :=
  ((sessions.filter fun s => s.room_id == roomId).filter (·.is_currently_active)).length

/-- Line 401: `is_currently_active: room.is_active &&
parseInt(stats.currently_active_users) > 0`. -/
def roomIsCurrentlyActive (room : RoomRow) (sessions : List SessionRow) : Bool :=
  room.is_active && decide (0 < currentlyActiveUsers room.room_id sessions)

/-- A room marked inactive by the ingestion process. -/
def inactiveRoom : RoomRow :=
  { sampleRoom with room_id := "r-inactive", is_active := false }

/-- A session still marked currently active inside `inactiveRoom`. -/
def staleActiveSession : SessionRow :=
  ⟨2, "u2", "r-inactive", 700, none, none, true, some "join"⟩

/-! ## Null-coalescing lemmas -/

theorem jsOrInt_zero (a : Option Int) : jsOrInt a 0 = some (a.getD 0) := by
  cases a with
  | none => rfl
  | some n =>
      by_cases h : n = 0
      · subst h; rfl
      · simp [jsOrInt, intTruthy, h]

theorem jsParseIntOr0_eq (a : Option Int) : jsParseIntOr0 a = some (a.getD 0) := by
  cases a with
  | none => rfl
  | some n =>
      by_cases h : n = 0
      · subst h; rfl
      · simp [jsParseIntOr0, intTruthy, h]

/-- C5 counterexample: a room visited only through one still-ongoing
session (NULL `duration_seconds`) yields a GET /users/:userId/rooms row
whose `total_time_seconds` and `avg_session_duration` are NULL — the
handler returns `result.rows` without any shaping, refuting the claim
that these aggregates are never null in the response. -/
theorem user_rooms_aggregates_null :
    (userRoomsAggRow sampleRoom [ongoingSession]).total_time_seconds = none ∧
    (userRoomsAggRow sampleRoom [ongoingSession]).avg_session_duration = none := by
  decide

/-- C5 (amended): in the GET /users/:userId response every numeric
profile field and every numeric statistics field materializes as the
underlying value null-coalesced to 0, never as null; the rows of
GET /users/:userId/rooms are returned unshaped and their
`total_time_seconds` / `avg_session_duration` aggregates can be null. -/
theorem profile_numeric_fields_never_null (u : UserRow) (stats : ProfileStats)
    (fav : Option String) :
    (shapeUserProfile u stats fav).followers_count = some (u.followers_count.getD 0) ∧
    (shapeUserProfile u stats fav).following_count = some (u.following_count.getD 0) ∧
    (shapeUserProfile u stats fav).friends_count = some (u.friends_count.getD 0) ∧
    (shapeUserProfile u stats fav).supporter_level = some (u.supporter_level.getD 0) ∧
    (shapeUserProfile u stats fav).profile_views_count = some (u.profile_views_count.getD 0) ∧
    (shapeUserProfile u stats fav).total_sessions = some (u.total_sessions.getD 0) ∧
    (shapeUserProfile u stats fav).total_duration_seconds = some (u.total_duration_seconds.getD 0) ∧
    (shapeUserProfile u stats fav).st_total_rooms_visited = some (stats.total_rooms_visited.getD 0) ∧
    (shapeUserProfile u stats fav).st_total_sessions = some (stats.total_sessions.getD 0) ∧
    (shapeUserProfile u stats fav).st_total_duration_seconds = some (stats.total_duration_seconds.getD 0) ∧
    (shapeUserProfile u stats fav).st_avg_session_duration = some (stats.avg_session_duration.getD 0) :=
  ⟨jsOrInt_zero _, jsOrInt_zero _, jsOrInt_zero _, jsOrInt_zero _, jsOrInt_zero _,
   jsOrInt_zero _, jsOrInt_zero _, jsParseIntOr0_eq _, jsParseIntOr0_eq _,
   jsParseIntOr0_eq _, jsParseIntOr0_eq _⟩

/-- C7 counterexample: a room whose `rooms.is_active` flag is false but
which still has a session marked currently active has
`currently_active_users = 1 > 0` yet `statistics.is_currently_active =
false`, because line 401 conjoins `room.is_active` — refuting the
claimed `iff currently_active_users > 0`. -/
theorem room_currently_active_flag_counterexample :
    currentlyActiveUsers "r-inactive" [staleActiveSession] = 1 ∧
    roomIsCurrentlyActive inactiveRoom [staleActiveSession] = false := by
  decide

/-- C7 (amended): `statistics.is_currently_active` is true iff the room
row's `is_active` flag is true AND `currently_active_users > 0`. -/
theorem room_currently_active_flag_iff (room : RoomRow) (sessions : List SessionRow) :
    roomIsCurrentlyActive room sessions = true ↔
      (room.is_active = true ∧ 0 < currentlyActiveUsers room.room_id sessions) := by
  simp [roomIsCurrentlyActive]

/-- C8: profile-view recording truncates the viewer IP to 50 characters
and the user agent to 255, turns duplicate conflicts into silent no-ops,
never raises to the caller, and leaves the enclosing GET /users/:userId
response (status and body) identical to the success case for every insert
outcome. -/
theorem record_profile_view_contract (userId : String) (req : Req) (db : DbResult)
    (param record_view : String) (users : List UserRow) (sessions : List SessionRow)
    (rooms : List RoomRow) :
    (recordProfileView userId req db).raised = false ∧
    (recordProfileView userId req db).inserted =
      (match db with
       | .ok => some ⟨userId, jsSubstring (resolveViewerIp req) 50,
                      jsSubstring (resolveViewerUA req) 255⟩
       | .conflict => none
       | .failure => none) ∧
    (jsSubstring (resolveViewerIp req) 50).length ≤ 50 ∧
    (jsSubstring (resolveViewerUA req) 255).length ≤ 255 ∧
    (getUserHandler param record_view req db users sessions rooms).status =
      (getUserHandler param record_view req .ok users sessions rooms).status ∧
    (getUserHandler param record_view req db users sessions rooms).body =
      (getUserHandler param record_view req .ok users sessions rooms).body := by
  refine ⟨?_, ?_, ?_, ?_, ?_, ?_⟩
  · cases db <;> rfl
  · cases db <;> rfl
  · rw [show (jsSubstring (resolveViewerIp req) 50).length =
        ((resolveViewerIp req).data.take 50).length from rfl, List.length_take]
    exact Nat.min_le_left _ _
  · rw [show (jsSubstring (resolveViewerUA req) 255).length =
        ((resolveViewerUA req).data.take 255).length from rfl, List.length_take]
    exact Nat.min_le_left _ _
  · cases h : lookupUser param users <;> simp [getUserHandler, h]
  · cases h : lookupUser param users <;> simp [getUserHandler, h]

/-- The first element of a filtered list is the first list element
satisfying the predicate: it satisfies it, and everything before it in
the original list does not. -/
theorem head?_filter_first {α : Type} (p : α → Bool) :
    ∀ (l : List α) (a : α), (l.filter p).head? = some a →
      p a = true ∧ ∃ pre post, l = pre ++ a :: post ∧ ∀ v ∈ pre, p v = false := by
  intro l
  induction l with
  | nil => intro a h; simp at h
  | cons x xs ih =>
      intro a h
      by_cases hx : p x = true
      · rw [List.filter_cons_of_pos hx] at h
        simp only [List.head?_cons, Option.some.injEq] at h
        subst h
        exact ⟨hx, [], xs, rfl, by simp⟩
      · rw [List.filter_cons_of_neg (by simpa using hx)] at h
        obtain ⟨hpa, pre, post, heq, hpre⟩ := ih a h
        refine ⟨hpa, x :: pre, post, by rw [heq]; rfl, ?_⟩
        intro v hv
        rcases List.mem_cons.mp hv with rfl | hv
        · simpa using hx
        · exact hpre v hv

/-- C10: GET /users/:userId resolves the user by exact `user_id` match or
case-insensitive `username` match, uses the first matching table row, and
keys the statistics query, the favorite-language query and any requested
view recording on the resolved row's canonical `user_id`, not on the raw
path parameter. -/
theorem get_user_canonical_id (param record_view : String) (req : Req) (db : DbResult)
    (users : List UserRow) (sessions : List SessionRow) (rooms : List RoomRow)
    (u : UserRow) (h : lookupUser param users = some u) :
    userMatchesParam param u = true ∧
    (∃ pre post, users = pre ++ u :: post ∧ ∀ v ∈ pre, userMatchesParam param v = false) ∧
    (getUserHandler param record_view req db users sessions rooms).statsKey = some u.user_id ∧
    (getUserHandler param record_view req db users sessions rooms).favLangKey = some u.user_id ∧
    (getUserHandler param record_view req db users sessions rooms).recordedView =
      (if record_view == "true" then (recordProfileView u.user_id req db).inserted else none) ∧
    ∀ r ∈ (getUserHandler param record_view req db users sessions rooms).recordedView,
      r.viewed_user_id = u.user_id := by
  obtain ⟨hm, pre, post, heq, hpre⟩ := head?_filter_first (userMatchesParam param) users u h
  refine ⟨hm, ⟨pre, post, heq, hpre⟩, ?_, ?_, ?_, ?_⟩
  · simp [getUserHandler, h]
  · simp [getUserHandler, h]
  · simp [getUserHandler, h]
  · intro r hr
    simp only [getUserHandler, h] at hr
    by_cases hrv : record_view == "true"
    · cases db <;>
        simp [hrv, recordProfileView, insertProfileView, Option.mem_def] at hr <;>
        rw [← hr]
    · simp [hrv] at hr

/-- Witness for C10: the parameter "ALICE" resolves to user "alice" by
case-insensitive username match past a non-matching row, and all
downstream keys are the canonical id "u-alice". -/
theorem get_user_canonical_id_check :
    userMatchesParam "ALICE" aliceRow = true ∧
    (∃ pre post, [alice99Row, aliceRow] = pre ++ aliceRow :: post ∧
      ∀ v ∈ pre, userMatchesParam "ALICE" v = false) ∧
    (getUserHandler "ALICE" "true" ⟨some "203.0.113.7", none, some "TestAgent"⟩ .ok
      [alice99Row, aliceRow] [] []).statsKey = some aliceRow.user_id ∧
    (getUserHandler "ALICE" "true" ⟨some "203.0.113.7", none, some "TestAgent"⟩ .ok
      [alice99Row, aliceRow] [] []).favLangKey = some aliceRow.user_id ∧
    (getUserHandler "ALICE" "true" ⟨some "203.0.113.7", none, some "TestAgent"⟩ .ok
      [alice99Row, aliceRow] [] []).recordedView =
      (if ("true" : String) == "true" then
        (recordProfileView aliceRow.user_id ⟨some "203.0.113.7", none, some "TestAgent"⟩ .ok).inserted
      else none) ∧
    ∀ r ∈ (getUserHandler "ALICE" "true" ⟨some "203.0.113.7", none, some "TestAgent"⟩ .ok
      [alice99Row, aliceRow] [] []).recordedView, r.viewed_user_id = aliceRow.user_id :=
  get_user_canonical_id "ALICE" "true" ⟨some "203.0.113.7", none, some "TestAgent"⟩ .ok
    [alice99Row, aliceRow] [] [] aliceRow (by decide)

end Free4Talk
